import Mathlib

/-!
# Verification of `OpenGLSpotLightGroup` (QtOpenGL)

A shallow embedding of `src/OpenGL/openglspotlightgroup.cpp`, the
spotlight-group-to-GPU-buffer translator, together with proofs of the
specified properties.

Scalars are taken in an arbitrary field `α` (instantiated at `ℚ` for
executable checks and at `ℝ` when `glm::normalize`, i.e. a square root,
is involved).  Vectors and 4×4 matrices follow glm's column-major
convention.  The C++ iterator range `[begin, end)` is embedded as the
list of lights it denotes; the destination pointer is embedded as a byte
offset, and each translation routine is embedded as the trace of
(record-start-offset, record) writes it performs.
-/

/-- A 3-component vector (glm::vec3 / KVector3D). -/
structure Vec3 (α : Type) where
  x : α
  y : α
  z : α
deriving DecidableEq

/-- A 4-component vector (glm::vec4). -/
structure Vec4 (α : Type) where
  x : α
  y : α
  z : α
  w : α
deriving DecidableEq

/-- A 4×4 matrix in glm's column-major layout: four column vectors. -/
structure Mat4 (α : Type) where
  c0 : Vec4 α
  c1 : Vec4 α
  c2 : Vec4 α
  c3 : Vec4 α
deriving DecidableEq

/-- `Karma::ToGlm(v, s)`: extend a 3-vector with an explicit homogeneous
component `s` into a `glm::vec4`. -/
def toGlm4 {α : Type} (v : Vec3 α) (s : α) : Vec4 α :=
  ⟨v.x, v.y, v.z, s⟩

/-- `glm::vec3(v)` applied to a `glm::vec4`: drop the `w` component. -/
def vec3of4 {α : Type} (v : Vec4 α) : Vec3 α :=
  ⟨v.x, v.y, v.z⟩

/-- Matrix–vector product `m * v` for a column-major matrix (glm). -/
def mulMV {α : Type} [Field α] (m : Mat4 α) (v : Vec4 α) : Vec4 α :=
  ⟨ m.c0.x * v.x + m.c1.x * v.y + m.c2.x * v.z + m.c3.x * v.w
  , m.c0.y * v.x + m.c1.y * v.y + m.c2.y * v.z + m.c3.y * v.w
  , m.c0.z * v.x + m.c1.z * v.y + m.c2.z * v.z + m.c3.z * v.w
  , m.c0.w * v.x + m.c1.w * v.y + m.c2.w * v.z + m.c3.w * v.w ⟩

/-- Matrix–matrix product `a * b` for column-major matrices (glm). -/
def mulMM {α : Type} [Field α] (a b : Mat4 α) : Mat4 α :=
  ⟨mulMV a b.c0, mulMV a b.c1, mulMV a b.c2, mulMV a b.c3⟩

/-- The identity 4×4 matrix. -/
def idMat4 {α : Type} [Field α] : Mat4 α :=
  ⟨⟨1, 0, 0, 0⟩, ⟨0, 1, 0, 0⟩, ⟨0, 0, 1, 0⟩, ⟨0, 0, 0, 1⟩⟩

/-- `glm::dot(v, v)`-style 4-component dot product. -/
def dot4 {α : Type} [Field α] (a b : Vec4 α) : α :=
  a.x * b.x + a.y * b.y + a.z * b.z + a.w * b.w

/-- `glm::normalize` on a `glm::vec4`: divide every component by the
vector's Euclidean length.  The square root is supplied explicitly so
the definition stays polymorphic in the scalar field; at `α = ℝ` it is
`Real.sqrt`. -/
def normalize4 {α : Type} [Field α] (sqrt : α → α) (v : Vec4 α) : Vec4 α :=
  let n := sqrt (dot4 v v)
  ⟨v.x / n, v.y / n, v.z / n, v.w / n⟩

/-- Squared Euclidean length of a 3-vector.  (Over `ℝ`, `v` has unit
length exactly when `sqnorm3 v = 1`.) -/
def sqnorm3 {α : Type} [Field α] (v : Vec3 α) : α :=
  v.x ^ 2 + v.y ^ 2 + v.z ^ 2

/-- A spotlight as read by the translator (the external, immutable
`OpenGLSpotLight` view): cone angles, attenuation + depth, colors,
direction, translation, and the derived local-to-world matrix.
Color conversions (`Karma::ToGlm` on colors) are external and
value-preserving, so `diffuse` is carried directly as a `vec4` and
`specular` as a `vec3`. -/
structure SpotLight (α : Type) where
  innerAngle : α
  outerAngle : α
  attenuation : Vec3 α
  depth : α
  diffuse : Vec4 α
  specular : Vec3 α
  direction : Vec3 α
  translation : Vec3 α
  toMatrix : Mat4 α
deriving DecidableEq

/-- The external, read-only view state (`OpenGLRenderBlock`): the two
per-frame transform matrices the translator reads. -/
structure OpenGLRenderBlock (α : Type) where
  worldToView : Mat4 α
  worldToPersp : Mat4 α
deriving DecidableEq

/-- The GPU spotlight record (`DataType`), one fixed-size POD record per
light, fields named as in the source. -/
structure SpotLightData (α : Type) where
  m_innerAngle : α
  m_outerAngle : α
  m_diffAngle : α
  m_attenuation : Vec4 α
  m_diffuse : Vec4 α
  m_direction : Vec3 α
  m_perspTrans : Mat4 α
  m_specular : Vec3 α
  m_viewTrans : Vec3 α
deriving DecidableEq

/-- The per-light record computation: the body of the `while` loop shared
verbatim by `translateBuffer` and `translateUniforms` (lines 29–37 and
52–60 of the source). -/
def translateRecord {α : Type} [Field α] (sqrt : α → α)
    (stats : OpenGLRenderBlock α) (lightSource : SpotLight α) :
    SpotLightData α where
  m_innerAngle := lightSource.innerAngle
  m_outerAngle := lightSource.outerAngle
  m_diffAngle := lightSource.outerAngle - lightSource.innerAngle
  m_attenuation := toGlm4 lightSource.attenuation lightSource.depth
  m_diffuse := lightSource.diffuse
  m_direction :=
    vec3of4 (normalize4 sqrt (mulMV stats.worldToView (toGlm4 lightSource.direction 0)))
  m_perspTrans := mulMM stats.worldToPersp lightSource.toMatrix
  m_specular := lightSource.specular
  m_viewTrans := vec3of4 (mulMV stats.worldToView (toGlm4 lightSource.translation 1))

/-- `OpenGLSpotLightGroup::translateBuffer`: iterate the light range,
writing one record per light; `++data` advances the typed destination
pointer by one record, i.e. by `sz = sizeof(DataType)` bytes.  The
result is the trace of writes: each element is the byte offset of a
record start paired with the complete record written there. -/
def translateBuffer {α : Type} [Field α] (sqrt : α → α)
    (stats : OpenGLRenderBlock α) (sz : Nat) (data : Nat) :
    List (SpotLight α) → List (Nat × SpotLightData α)
  | [] => []
  | lightSource :: rest =>
      (data, translateRecord sqrt stats lightSource) ::
        translateBuffer sqrt stats sz (data + sz) rest

/-- `OpenGLSpotLightGroup::translateUniforms`: identical per-light
computation, but `data += step` advances the destination pointer by the
caller-supplied byte stride `step`. -/
def translateUniforms {α : Type} [Field α] (sqrt : α → α)
    (stats : OpenGLRenderBlock α) (step : Nat) (data : Nat) :
    List (SpotLight α) → List (Nat × SpotLightData α)
  | [] => []
  | lightSource :: rest =>
      (data, translateRecord sqrt stats lightSource) ::
        translateUniforms sqrt stats step (data + step) rest

/-- Apply a trace of record writes to a destination buffer, modelled as a
map from record-start byte offsets to record contents. -/
def applyWrites {α : Type} (ws : List (Nat × SpotLightData α))
    (buf : Nat → Option (SpotLightData α)) : Nat → Option (SpotLightData α) :=
  match ws with
  | [] => buf
  | (o, r) :: rest => applyWrites rest (fun n => if n = o then some r else buf n)

/-- The full state touched by one translation call: the light collection,
the borrowed view state, and the destination buffer. -/
structure TranslateState (α : Type) where
  lights : List (SpotLight α)
  stats : OpenGLRenderBlock α
  buf : Nat → Option (SpotLightData α)

/-- Run `translateBuffer` on a state: only the buffer component changes
(the lights and view state are taken by const reference). -/
def runTranslateBuffer {α : Type} [Field α] (sqrt : α → α) (sz data : Nat)
    (s : TranslateState α) : TranslateState α :=
  { s with buf := applyWrites (translateBuffer sqrt s.stats sz data s.lights) s.buf }

/-- Run `translateUniforms` on a state: only the buffer component changes. -/
def runTranslateUniforms {α : Type} [Field α] (sqrt : α → α) (step data : Nat)
    (s : TranslateState α) : TranslateState α :=
  { s with buf := applyWrites (translateUniforms sqrt s.stats step data s.lights) s.buf }

/-- Fuel-indexed version of the `translateBuffer` loop: `none` means the
fuel ran out before the iterator reached `end`. -/
def translateBufferFuel {α : Type} [Field α] (sqrt : α → α)
    (stats : OpenGLRenderBlock α) (sz : Nat) :
    Nat → Nat → List (SpotLight α) → Option (List (Nat × SpotLightData α))
  | _, _, [] => some []
  | 0, _, _ :: _ => none
  | fuel + 1, data, lightSource :: rest =>
      (translateBufferFuel sqrt stats sz fuel (data + sz) rest).map
        (fun t => (data, translateRecord sqrt stats lightSource) :: t)

/-- Fuel-indexed version of the `translateUniforms` loop. -/
def translateUniformsFuel {α : Type} [Field α] (sqrt : α → α)
    (stats : OpenGLRenderBlock α) (step : Nat) :
    Nat → Nat → List (SpotLight α) → Option (List (Nat × SpotLightData α))
  | _, _, [] => some []
  | 0, _, _ :: _ => none
  | fuel + 1, data, lightSource :: rest =>
      (translateUniformsFuel sqrt stats step fuel (data + step) rest).map
        (fun t => (data, translateRecord sqrt stats lightSource) :: t)

/-- OpenGL element types used by the mesh-attribute declarations. -/
inductive GLElementType where
  | Float
deriving DecidableEq

/-- One vertex-attribute declaration recorded by
`OpenGLMesh::vertexAttribPointerDivisor`: attribute slot, component
count, number of consecutive slots spanned (`cols`, 1 for plain
attributes, 4 for the `mat4` variant), element type, normalized flag,
byte stride, byte offset, and instancing divisor. -/
structure AttribDecl where
  slot : Nat
  comps : Nat
  cols : Nat
  elemType : GLElementType
  normalized : Bool
  stride : Nat
  offset : Nat
  divisor : Nat
deriving DecidableEq

/-- `OpenGLSpotLightGroup::initializeMesh`: appends the six
`vertexAttribPointerDivisor` declarations to the mesh's attribute state.
The field offsets inside `DataType` and `sizeof(DataType)` live in the
external header, so they are parameters here. -/
def initializeMesh (translationOff directionOff attenuationOff diffuseOff
    specularOff perspectiveOff szData : Nat)
    (mesh : List AttribDecl) : List AttribDecl :=
  mesh ++
    [ ⟨1, 4, 1, GLElementType.Float, false, szData, translationOff, 1⟩
    , ⟨2, 4, 1, GLElementType.Float, false, szData, directionOff, 1⟩
    , ⟨4, 4, 1, GLElementType.Float, false, szData, attenuationOff, 1⟩
    , ⟨5, 4, 1, GLElementType.Float, false, szData, diffuseOff, 1⟩
    , ⟨6, 3, 1, GLElementType.Float, false, szData, specularOff, 1⟩
    , ⟨7, 4, 4, GLElementType.Float, false, szData, perspectiveOff, 1⟩ ]

/-! ## Sample values used for concrete checks -/

/-- A concrete view state over `ℚ`: identity view and perspective
matrices. -/
def sampleStats : OpenGLRenderBlock ℚ := ⟨idMat4, idMat4⟩

/-- The spec's example light: inner angle 10°, outer angle 30°, world
translation (0, 0, −5); its local-to-world matrix is the translation
by (0, 0, −5). -/
def exampleLight : SpotLight ℚ :=
  { innerAngle := 10
  , outerAngle := 30
  , attenuation := ⟨1, 2, 3⟩
  , depth := 4
  , diffuse := ⟨5, 6, 7, 8⟩
  , specular := ⟨9, 10, 11⟩
  , direction := ⟨0, 0, 1⟩
  , translation := ⟨0, 0, -5⟩
  , toMatrix := ⟨⟨1, 0, 0, 0⟩, ⟨0, 1, 0, 0⟩, ⟨0, 0, 1, 0⟩, ⟨0, 0, -5, 1⟩⟩ }

/-- A state with no lights, used for the empty-range check. -/
def emptyState : TranslateState ℚ :=
  ⟨[], sampleStats, fun _ => none⟩

/-! ## Shared lemmas about the translation traces -/

lemma translateUniforms_map_snd {α : Type} [Field α] (sqrt : α → α)
    (stats : OpenGLRenderBlock α) (step : Nat) :
    ∀ (data : Nat) (lights : List (SpotLight α)),
      (translateUniforms sqrt stats step data lights).map Prod.snd
        = lights.map (translateRecord sqrt stats)
  | _, [] => rfl
  | data, _ :: rest => by
      simp [translateUniforms, translateUniforms_map_snd sqrt stats step (data + step) rest]

lemma translateUniforms_eq_translateBuffer {α : Type} [Field α] (sqrt : α → α)
    (stats : OpenGLRenderBlock α) (sz : Nat) :
    ∀ (data : Nat) (lights : List (SpotLight α)),
      translateUniforms sqrt stats sz data lights
        = translateBuffer sqrt stats sz data lights
  | _, [] => rfl
  | data, _ :: rest => by
      simp [translateUniforms, translateBuffer,
        translateUniforms_eq_translateBuffer sqrt stats sz (data + sz) rest]

lemma translateUniforms_map_fst {α : Type} [Field α] (sqrt : α → α)
    (stats : OpenGLRenderBlock α) (step : Nat) (lights : List (SpotLight α)) :
    ∀ data : Nat,
      (translateUniforms sqrt stats step data lights).map Prod.fst
        = (List.range lights.length).map (fun i => data + step * i) := by
  induction lights with
  | nil => intro data; simp [translateUniforms]
  | cons l rest ih =>
      intro data
      simp only [translateUniforms, List.map_cons, List.length_cons,
        List.range_succ_eq_map, List.map_map, ih (data + step), List.cons.injEq]
      constructor
      · simp
      · apply List.map_congr_left
        intro i _
        simp only [Function.comp_apply, Nat.succ_eq_add_one, Nat.mul_succ]
        ring

lemma getD_map_range (f : Nat → Nat) (n i : Nat) (h : i < n) :
    (((List.range n).map f).getD i 0) = f i := by
  rw [List.getD_eq_getElem?_getD, List.getElem?_map, List.getElem?_range h]
  rfl

lemma translateBufferFuel_spec {α : Type} [Field α] (sqrt : α → α)
    (stats : OpenGLRenderBlock α) (sz : Nat) (lights : List (SpotLight α)) :
    ∀ data : Nat,
      translateBufferFuel sqrt stats sz lights.length data lights
        = some (translateBuffer sqrt stats sz data lights) := by
  induction lights with
  | nil => intro data; rfl
  | cons l rest ih =>
      intro data
      simp [translateBufferFuel, translateBuffer, ih (data + sz)]

lemma translateUniformsFuel_spec {α : Type} [Field α] (sqrt : α → α)
    (stats : OpenGLRenderBlock α) (step : Nat) (lights : List (SpotLight α)) :
    ∀ data : Nat,
      translateUniformsFuel sqrt stats step lights.length data lights
        = some (translateUniforms sqrt stats step data lights) := by
  induction lights with
  | nil => intro data; rfl
  | cons l rest ih =>
      intro data
      simp [translateUniformsFuel, translateUniforms, ih (data + step)]

/-- Core normalization fact: a nonzero `vec4` with vanishing `w`
component, normalized by its Euclidean length, has a `vec3` part of unit
length. -/
lemma sqnorm3_normalize4 (v : Vec4 ℝ) (hw : v.w = 0)
    (hv : v ≠ ⟨0, 0, 0, 0⟩) :
    sqnorm3 (vec3of4 (normalize4 Real.sqrt v)) = 1 := by
  have hs : dot4 v v = v.x ^ 2 + v.y ^ 2 + v.z ^ 2 := by
    simp [dot4, hw]; ring
  have hnonneg : (0 : ℝ) ≤ dot4 v v := by rw [hs]; positivity
  have hne : dot4 v v ≠ 0 := by
    intro h0
    rw [hs] at h0
    have hx : v.x = 0 := by nlinarith [sq_nonneg v.x, sq_nonneg v.y, sq_nonneg v.z]
    have hy : v.y = 0 := by nlinarith [sq_nonneg v.x, sq_nonneg v.y, sq_nonneg v.z]
    have hz : v.z = 0 := by nlinarith [sq_nonneg v.x, sq_nonneg v.y, sq_nonneg v.z]
    exact hv (by cases v; simp_all)
  have hpos : 0 < dot4 v v := lt_of_le_of_ne hnonneg (Ne.symm hne)
  have hn : Real.sqrt (dot4 v v) ^ 2 = dot4 v v := Real.sq_sqrt hnonneg
  have hnne : Real.sqrt (dot4 v v) ≠ 0 :=
    ne_of_gt (Real.sqrt_pos.mpr hpos)
  simp only [sqnorm3, vec3of4, normalize4]
  rw [div_pow, div_pow, div_pow]
  rw [div_add_div_same, div_add_div_same, hn]
  rw [← hs]
  exact div_self hne

lemma translateUniforms_map_field {α β : Type} [Field α] (sqrt : α → α)
    (stats : OpenGLRenderBlock α) (step data : Nat)
    (lights : List (SpotLight α)) (f : SpotLightData α → β) :
    (translateUniforms sqrt stats step data lights).map (fun p => f p.2)
      = lights.map (fun l => f (translateRecord sqrt stats l)) := by
  have h := translateUniforms_map_snd sqrt stats step data lights
  calc (translateUniforms sqrt stats step data lights).map (fun p => f p.2)
      = ((translateUniforms sqrt stats step data lights).map Prod.snd).map f := by
        rw [List.map_map]; rfl
    _ = (lights.map (translateRecord sqrt stats)).map f := by rw [h]
    _ = lights.map (fun l => f (translateRecord sqrt stats l)) := by
        rw [List.map_map]; rfl

lemma translateBuffer_map_field {α β : Type} [Field α] (sqrt : α → α)
    (stats : OpenGLRenderBlock α) (sz data : Nat)
    (lights : List (SpotLight α)) (f : SpotLightData α → β) :
    (translateBuffer sqrt stats sz data lights).map (fun p => f p.2)
      = lights.map (fun l => f (translateRecord sqrt stats l)) := by
  rw [← translateUniforms_eq_translateBuffer]
  exact translateUniforms_map_field sqrt stats sz data lights f

/-! ## The claims -/

/-- C1: for every view state, destination, and light range,
`translateBuffer` and `translateUniforms` write exactly one complete
record per light — the trace has exactly one entry per light in the
range, and each entry carries the full record computed from the
corresponding light (no partial records). -/
theorem C1_one_record_per_light {α : Type} [Field α] (sqrt : α → α)
    (stats : OpenGLRenderBlock α) (sz step data : Nat)
    (lights : List (SpotLight α)) :
    ((translateBuffer sqrt stats sz data lights).length = lights.length
      ∧ (translateBuffer sqrt stats sz data lights).map Prod.snd
          = lights.map (translateRecord sqrt stats))
    ∧ ((translateUniforms sqrt stats step data lights).length = lights.length
      ∧ (translateUniforms sqrt stats step data lights).map Prod.snd
          = lights.map (translateRecord sqrt stats)) := by
  have h1 := translateUniforms_map_snd sqrt stats sz data lights
  have h2 := translateUniforms_map_snd sqrt stats step data lights
  rw [translateUniforms_eq_translateBuffer] at h1
  refine ⟨⟨?_, h1⟩, ?_, h2⟩
  · have := congrArg List.length h1
    simpa using this
  · have := congrArg List.length h2
    simpa using this

/-- C2: every record written by `translateBuffer` or `translateUniforms`
has its angle-delta field (`m_diffAngle`) equal to the light's outer
cone angle minus its inner cone angle, exactly. -/
theorem C2_angle_delta {α : Type} [Field α] (sqrt : α → α)
    (stats : OpenGLRenderBlock α) (sz step data : Nat)
    (lights : List (SpotLight α)) :
    ((translateBuffer sqrt stats sz data lights).map (fun p => p.2.m_diffAngle)
        = lights.map (fun l => l.outerAngle - l.innerAngle))
    ∧ ((translateUniforms sqrt stats step data lights).map (fun p => p.2.m_diffAngle)
        = lights.map (fun l => l.outerAngle - l.innerAngle)) :=
  ⟨translateBuffer_map_field sqrt stats sz data lights (fun r => r.m_diffAngle),
   translateUniforms_map_field sqrt stats step data lights (fun r => r.m_diffAngle)⟩

/-- C4: every record's view-space position field (`m_viewTrans`) equals
the world-to-view matrix applied to the light's world translation
extended with homogeneous coordinate w = 1. -/
theorem C4_view_position {α : Type} [Field α] (sqrt : α → α)
    (stats : OpenGLRenderBlock α) (sz step data : Nat)
    (lights : List (SpotLight α)) :
    ((translateBuffer sqrt stats sz data lights).map (fun p => p.2.m_viewTrans)
        = lights.map (fun l =>
            vec3of4 (mulMV stats.worldToView (toGlm4 l.translation 1))))
    ∧ ((translateUniforms sqrt stats step data lights).map (fun p => p.2.m_viewTrans)
        = lights.map (fun l =>
            vec3of4 (mulMV stats.worldToView (toGlm4 l.translation 1)))) :=
  ⟨translateBuffer_map_field sqrt stats sz data lights (fun r => r.m_viewTrans),
   translateUniforms_map_field sqrt stats step data lights (fun r => r.m_viewTrans)⟩

/-- C5: every record's perspective-transform field (`m_perspTrans`)
equals the world-to-perspective matrix composed on the left with the
light's local-to-world matrix; and on the spec's example (inner 10°,
outer 30°, translation (0, 0, −5), identity view and perspective
matrices) the written record has angle delta 20°, view-space position
(0, 0, −5), and a perspective transform equal to the light's own
local-to-world matrix. -/
theorem C5_perspective_transform {α : Type} [Field α] (sqrt : α → α)
    (stats : OpenGLRenderBlock α) (sz step data : Nat)
    (lights : List (SpotLight α)) :
    ((translateBuffer sqrt stats sz data lights).map (fun p => p.2.m_perspTrans)
        = lights.map (fun l => mulMM stats.worldToPersp l.toMatrix))
    ∧ ((translateUniforms sqrt stats step data lights).map (fun p => p.2.m_perspTrans)
        = lights.map (fun l => mulMM stats.worldToPersp l.toMatrix))
    ∧ ((translateBuffer (fun x : ℚ => x) sampleStats 144 0 [exampleLight]).map
          (fun p => (p.2.m_diffAngle, p.2.m_viewTrans, p.2.m_perspTrans))
        = [(20, ⟨0, 0, -5⟩, exampleLight.toMatrix)]) :=
  ⟨translateBuffer_map_field sqrt stats sz data lights (fun r => r.m_perspTrans),
   translateUniforms_map_field sqrt stats step data lights (fun r => r.m_perspTrans),
   by
    simp only [translateBuffer, translateRecord, sampleStats, exampleLight,
      mulMM, mulMV, idMat4, toGlm4, vec3of4, List.map_cons, List.map_nil,
      List.cons.injEq, Prod.mk.injEq, Vec3.mk.injEq, Vec4.mk.injEq,
      Mat4.mk.injEq, and_true]
    norm_num⟩

/-- C7: `translateUniforms` performs the identical per-light computation
to `translateBuffer`: when the supplied stride equals the record size
used by the buffer path, it writes the same sequence of records at the
same offsets. -/
theorem C7_uniforms_equals_buffer {α : Type} [Field α] (sqrt : α → α)
    (stats : OpenGLRenderBlock α) (sz data : Nat)
    (lights : List (SpotLight α)) :
    translateUniforms sqrt stats sz data lights
      = translateBuffer sqrt stats sz data lights :=
  translateUniforms_eq_translateBuffer sqrt stats sz data lights

/-- C9: both translation loops terminate on every finite light range:
with fuel equal to the length of the range, the fuel-indexed loop
completes (never runs out) and computes exactly the translation trace. -/
theorem C9_loops_terminate {α : Type} [Field α] (sqrt : α → α)
    (stats : OpenGLRenderBlock α) (sz step data : Nat)
    (lights : List (SpotLight α)) :
    translateBufferFuel sqrt stats sz lights.length data lights
        = some (translateBuffer sqrt stats sz data lights)
    ∧ translateUniformsFuel sqrt stats step lights.length data lights
        = some (translateUniforms sqrt stats step data lights) :=
  ⟨translateBufferFuel_spec sqrt stats sz lights data,
   translateUniformsFuel_spec sqrt stats step lights data⟩

/-- C3: every record's direction field (`m_direction`) equals the
normalization of the world-to-view matrix applied to the light's
direction extended with homogeneous coordinate w = 0; and whenever the
transformed direction has vanishing w component (the case for any affine
view matrix, where direction is unaffected by translation) and is not
the zero vector (no zero-length direction, as the spec assumes), the
stored 3-vector has unit length: its squared norm, and hence its norm,
is exactly 1. -/
theorem C3_direction_normalized (stats : OpenGLRenderBlock ℝ)
    (sz step data : Nat) (lights : List (SpotLight ℝ)) :
    ((translateBuffer Real.sqrt stats sz data lights).map (fun p => p.2.m_direction)
        = lights.map (fun l =>
            vec3of4 (normalize4 Real.sqrt (mulMV stats.worldToView (toGlm4 l.direction 0)))))
    ∧ ((translateUniforms Real.sqrt stats step data lights).map (fun p => p.2.m_direction)
        = lights.map (fun l =>
            vec3of4 (normalize4 Real.sqrt (mulMV stats.worldToView (toGlm4 l.direction 0)))))
    ∧ ∀ l ∈ lights,
        (mulMV stats.worldToView (toGlm4 l.direction 0)).w = 0 →
        mulMV stats.worldToView (toGlm4 l.direction 0) ≠ ⟨0, 0, 0, 0⟩ →
        sqnorm3 (vec3of4 (normalize4 Real.sqrt
            (mulMV stats.worldToView (toGlm4 l.direction 0)))) = 1
        ∧ Real.sqrt (sqnorm3 (vec3of4 (normalize4 Real.sqrt
            (mulMV stats.worldToView (toGlm4 l.direction 0))))) = 1 := by
  refine ⟨translateBuffer_map_field Real.sqrt stats sz data lights (fun r => r.m_direction),
    translateUniforms_map_field Real.sqrt stats step data lights (fun r => r.m_direction),
    ?_⟩
  intro l _ hw hv
  have h := sqnorm3_normalize4 _ hw hv
  exact ⟨h, by rw [h, Real.sqrt_one]⟩

/-- Witness for C3 at a concrete input: identity view matrix and light
direction (0, 0, 1); both hypotheses hold and the stored direction has
unit length. -/
theorem C3_direction_normalized_witness :
    sqnorm3 (vec3of4 (normalize4 Real.sqrt
        (mulMV (idMat4 : Mat4 ℝ) (toGlm4 (⟨0, 0, 1⟩ : Vec3 ℝ) 0)))) = 1
    ∧ Real.sqrt (sqnorm3 (vec3of4 (normalize4 Real.sqrt
        (mulMV (idMat4 : Mat4 ℝ) (toGlm4 (⟨0, 0, 1⟩ : Vec3 ℝ) 0))))) = 1 := by
  have h := (C3_direction_normalized ⟨idMat4, idMat4⟩ 144 144 0
      [⟨10, 30, ⟨1, 2, 3⟩, 4, ⟨5, 6, 7, 8⟩, ⟨9, 10, 11⟩, ⟨0, 0, 1⟩, ⟨0, 0, -5⟩, idMat4⟩]).2.2
      ⟨10, 30, ⟨1, 2, 3⟩, 4, ⟨5, 6, 7, 8⟩, ⟨9, 10, 11⟩, ⟨0, 0, 1⟩, ⟨0, 0, -5⟩, idMat4⟩
      (by simp)
      (by simp [mulMV, idMat4, toGlm4])
      (by
        intro hEq
        have hz := congrArg Vec4.z hEq
        simp [mulMV, idMat4, toGlm4] at hz)
  exact h

/-- C6: in `translateUniforms` the start offsets of the written records
are `data + step * i`, so consecutive record start offsets differ by
exactly the supplied stride `step`; in `translateBuffer` the offsets are
`data + sz * i`, advancing by exactly one record size `sz` per light. -/
theorem C6_stride_offsets {α : Type} [Field α] (sqrt : α → α)
    (stats : OpenGLRenderBlock α) (sz step data : Nat)
    (lights : List (SpotLight α)) :
    ((translateUniforms sqrt stats step data lights).map Prod.fst
        = (List.range lights.length).map (fun i => data + step * i))
    ∧ (∀ i, i + 1 < lights.length →
        ((translateUniforms sqrt stats step data lights).map Prod.fst).getD (i + 1) 0
          = ((translateUniforms sqrt stats step data lights).map Prod.fst).getD i 0 + step)
    ∧ ((translateBuffer sqrt stats sz data lights).map Prod.fst
        = (List.range lights.length).map (fun i => data + sz * i)) := by
  have hu := translateUniforms_map_fst sqrt stats step lights data
  refine ⟨hu, ?_, ?_⟩
  · intro i hi
    rw [hu, getD_map_range _ _ _ hi, getD_map_range _ _ _ (by omega)]
    ring
  · rw [← translateUniforms_eq_translateBuffer]
    exact translateUniforms_map_fst sqrt stats sz lights data

/-- Witness for C6 at a concrete input: two lights, stride 160, base
offset 8; the second record starts exactly 160 bytes after the first. -/
theorem C6_stride_offsets_witness :
    0 + 1 < 2
    ∧ ((translateUniforms (fun x : ℚ => x) sampleStats 160 8
          [exampleLight, exampleLight]).map Prod.fst).getD (0 + 1) 0
        = ((translateUniforms (fun x : ℚ => x) sampleStats 160 8
            [exampleLight, exampleLight]).map Prod.fst).getD 0 0 + 160 :=
  ⟨by decide,
   (C6_stride_offsets (fun x : ℚ => x) sampleStats 144 160 8
      [exampleLight, exampleLight]).2.1 0 (by decide)⟩

/-- C8 counterexample: `initializeMesh` issues six attribute
declarations, not five — at any concrete offsets, the number of
declarations recorded on an initially empty mesh is not 5. -/
theorem C8_counterexample :
    ¬ ((initializeMesh 0 16 32 48 64 76 140 []).length = 5) := by
  decide

/-- C8 (amended): `initializeMesh` declares six per-instance vertex
attributes at slots 1, 2, 4, 5, 6, 7, each with divisor 1: translation,
direction, attenuation, and diffuse as 4-component floats; specular as
3-component floats; and the perspective transform as a 4×4 float matrix
occupying 4 consecutive attribute slots. -/
theorem C8_attribute_layout (t d a df sp pp sz : Nat)
    (mesh : List AttribDecl) :
    (initializeMesh t d a df sp pp sz mesh).length = mesh.length + 6
    ∧ (initializeMesh t d a df sp pp sz mesh).drop mesh.length
        = [ ⟨1, 4, 1, GLElementType.Float, false, sz, t, 1⟩
          , ⟨2, 4, 1, GLElementType.Float, false, sz, d, 1⟩
          , ⟨4, 4, 1, GLElementType.Float, false, sz, a, 1⟩
          , ⟨5, 4, 1, GLElementType.Float, false, sz, df, 1⟩
          , ⟨6, 3, 1, GLElementType.Float, false, sz, sp, 1⟩
          , ⟨7, 4, 4, GLElementType.Float, false, sz, pp, 1⟩ ] := by
  constructor
  · simp [initializeMesh]
  · rw [initializeMesh, List.drop_left]

/-- C10: on an empty light range both operations leave every cell of the
destination buffer unchanged; and for any range, neither operation
mutates the light collection or the view state. -/
theorem C10_empty_range_no_effect {α : Type} [Field α] (sqrt : α → α)
    (sz step data : Nat) (s : TranslateState α) :
    (s.lights = [] →
        (runTranslateBuffer sqrt sz data s).buf = s.buf
        ∧ (runTranslateUniforms sqrt step data s).buf = s.buf)
    ∧ (runTranslateBuffer sqrt sz data s).lights = s.lights
    ∧ (runTranslateBuffer sqrt sz data s).stats = s.stats
    ∧ (runTranslateUniforms sqrt step data s).lights = s.lights
    ∧ (runTranslateUniforms sqrt step data s).stats = s.stats := by
  refine ⟨?_, rfl, rfl, rfl, rfl⟩
  intro h
  constructor
  · simp [runTranslateBuffer, h, translateBuffer, applyWrites]
  · simp [runTranslateUniforms, h, translateUniforms, applyWrites]

/-- Witness for C10 at a concrete input: the empty-range state over `ℚ`
with an all-empty buffer is left with its buffer unchanged by both
operations. -/
theorem C10_empty_range_no_effect_witness :
    (runTranslateBuffer (fun x : ℚ => x) 144 0 emptyState).buf = emptyState.buf
    ∧ (runTranslateUniforms (fun x : ℚ => x) 160 0 emptyState).buf = emptyState.buf :=
  (C10_empty_range_no_effect (fun x : ℚ => x) 144 160 0 emptyState).1 rfl
